import Mathlib

/-!
Verification of the Twinkly light client (`custom_components/twinkly/light.py`)
against its natural-language specification.

The Python class `TwinklyLight` is shallowly embedded here:
  * JSON response bodies are association lists `JObj` of string keys and `JVal`
    values (every endpoint of the device returns a JSON object);
  * the aiohttp session is an oracle `Session` mapping each outgoing request to
    the parsed response body or an error (HTTP status errors are `Err.http code`,
    every other failure — timeout, connection error, body-parse error — is
    `Err.other`);
  * the mutable fields of the Python object become the record `LState`; each
    method becomes a function threading the relevant state explicitly and
    returning, besides its result, the trace of network events it performed;
  * Python floats are modelled as exact rationals: the literal `2.55` becomes
    `255 / 100 : ℚ` (the IEEE double `2.55` differs from it by less than
    `2 ^ (-50)`, and no property below depends on that difference);
  * Python `int(x)` truncation toward zero becomes `ratTrunc`.
-/

namespace Twinkly

/-- JSON values appearing in the device's responses: strings and numbers are the
only shapes the client ever produces or inspects. -/
inductive JVal where
  | s (v : String)
  | n (v : ℚ)
  deriving DecidableEq, Repr

/-- A parsed JSON object body, as an association list in document order. -/
abbrev JObj := List (String × JVal)

/-- Failures of one HTTP call: `http code` models `aiohttp.ClientResponseError`
with the given status, `other` models every non-HTTP failure (timeout,
connection error, malformed body, `KeyError`/`TypeError` while reading it). -/
inductive Err where
  | http (code : Nat)
  | other
  deriving DecidableEq, Repr

/-- Network events, in the order the client performs them: the login POST, the
token-verify POST (with the token it carries), and an authenticated request to
`endpoint` with optional JSON `data` and the `X-Auth-Token` value `token`. -/
inductive Ev where
  | login
  | verify (token : String)
  | req (endpoint : String) (data : Option JObj) (token : String)
  deriving DecidableEq, Repr

/-- The transport oracle standing for the aiohttp session: per-request
deterministic responses. `login` answers the fixed-challenge login POST with a
parsed body, `verify` answers the verify POST carrying a given token, and
`request` answers an authenticated call (endpoint, JSON data, token header)
with the parsed response body. -/
structure Session where
  login : Except Err JObj
  verify : String → Except Err Unit
  request : String → Option JObj → String → Except Err JObj

/-- Result of a stateful client step: the returned value or propagated
exception, the `_token` field afterwards, and the network events performed. -/
structure RW (α : Type) where
  res : Except Err α
  tok : Option String
  trace : List Ev
  deriving Repr

-- Endpoint and attribute-key constants of light.py.

def ATTR_HOST : String := "host"

def ATTR_NAME : String := "device_name"

/-- Constant `ATTR_BRIGHTNESS` imported from homeassistant.components.light. -/
def ATTR_BRIGHTNESS : String := "brightness"

def HIDDEN_ATTR : List String := ["code", "copyright", "mac"]

def EP_DEVICE_INFO : String := "gestalt"

def EP_MODE : String := "led/mode"

def EP_BRIGHTNESS : String := "led/out/brightness"

/-- Python dict lookup `obj[k]` on a parsed JSON object, `none` when the key is
absent (a `KeyError` at the use site). -/
def jget (obj : JObj) (k : String) : Option JVal :=
  match obj with
  | [] => none
  | (k2, v) :: rest => if k2 = k then some v else jget rest k

/-- Python dict assignment `obj[k] = v`: replace the value in place when the
key is present (dicts keep insertion order), append otherwise. -/
def setAttr (l : JObj) (k : String) (v : JVal) : JObj :=
  match l with
  | [] => [(k, v)]
  | (k2, v2) :: rest => if k2 = k then (k, v) :: rest else (k2, v2) :: setAttr rest k v

/-- Python `int(x)` on a JSON value: truncate a number toward zero, parse a
decimal string, fail (`ValueError`, modelled `Err.other`) otherwise. -/
def ratTrunc (q : ℚ) : Int :=
  q.num.tdiv q.den

def pyInt (v : JVal) : Except Err Int :=
  match v with
  | JVal.n q => Except.ok (ratTrunc q)
  | JVal.s str =>
    match str.toInt? with
    | some i => Except.ok i
    | none => Except.error Err.other

/-- Truthiness of the optional `_name` field: Python treats both `None` and the
empty string as false. -/
def pyTruthyStr : Option String → Bool
  | some s => decide (s ≠ "")
  | none => false

/-- Method `auth` (light.py lines 183–209): POST the fixed challenge to the
login endpoint, extract `authentication_token` from the body (`KeyError` when
missing; a non-string token would make the verify POST's header fail), verify
the token via the verify endpoint, and only then store it in `_token`. Any
failure propagates and leaves `_token` (`tok`) unchanged. -/
def auth (sess : Session) (tok : Option String) : RW String :=
  match sess.login with
  | Except.error e => ⟨Except.error e, tok, [Ev.login]⟩
  | Except.ok obj =>
    match jget obj "authentication_token" with
    | some (JVal.s token) =>
      (match sess.verify token with
       | Except.error e => ⟨Except.error e, tok, [Ev.login, Ev.verify token]⟩
       | Except.ok _ => ⟨Except.ok token, some token, [Ev.login, Ev.verify token]⟩)
    | some _ => ⟨Except.error Err.other, tok, [Ev.login]⟩
    | none => ⟨Except.error Err.other, tok, [Ev.login]⟩

/-- One attempt of `send_request` without the 401-retry logic: authenticate
first when no token is held (a failure there propagates), then perform the
request; a GET (`data = none`) returns the parsed body, a POST returns `none`
(Python `None`). -/
def send_request_once (sess : Session) (endpoint : String) (data : Option JObj)
    (tokenSt : Option String) : RW (Option JObj) :=
  match tokenSt with
  | some t =>
    (match sess.request endpoint data t with
     | Except.ok body => ⟨Except.ok (if data.isNone then some body else none), some t,
         [Ev.req endpoint data t]⟩
     | Except.error e => ⟨Except.error e, some t, [Ev.req endpoint data t]⟩)
  | none =>
    let a := auth sess none
    match a.res with
    | Except.error e => ⟨Except.error e, a.tok, a.trace⟩
    | Except.ok t =>
      (match sess.request endpoint data t with
       | Except.ok body => ⟨Except.ok (if data.isNone then some body else none), some t,
           a.trace ++ [Ev.req endpoint data t]⟩
       | Except.error e => ⟨Except.error e, some t, a.trace ++ [Ev.req endpoint data t]⟩)

/-- Method `send_request` (light.py lines 161–181): perform one attempt; on a
`ClientResponseError` with status 401 while `retry > 0`, clear the token and
recurse once with `retry - 1` (re-authenticating, since the token is absent);
any other error — or a 401 with `retry = 0` — propagates. -/
def send_request (sess : Session) (endpoint : String) (data : Option JObj) :
    Nat → Option String → RW (Option JObj)
  | 0, tokenSt => send_request_once sess endpoint data tokenSt
  | Nat.succ k, tokenSt =>
    let r := send_request_once sess endpoint data tokenSt
    match r.res with
    | Except.error (Err.http 401) =>
      let r2 := send_request sess endpoint data k none
      ⟨r2.res, r2.tok, r.trace ++ r2.trace⟩
    | _ => r

/-- The mutable fields of a `TwinklyLight` instance (light.py lines 51–62).
`_brightness` is a rational because the Python field holds
`get_brigthness() * 2.55`, a float. -/
structure LState where
  _name : Option String
  _host : String
  _token : Option String
  _is_on : Bool
  _brightness : ℚ
  _is_available : Bool
  _attributes : JObj
  deriving DecidableEq, Repr

/-- Constructor `__init__` (light.py lines 51–62). -/
def initState (name : Option String) (host : String) : LState :=
  { _name := name
    _host := host
    _token := none
    _is_on := false
    _brightness := 0
    _is_available := false
    _attributes := [(ATTR_HOST, JVal.s host)] }

/-- Property `name` (light.py lines 76–79): the configured name when truthy,
else the stored `device_name` attribute when present, else the constant
default. The result is a `JVal` because the attribute value is returned as-is. -/
def name (st : LState) : JVal :=
  if pyTruthyStr st._name then JVal.s (st._name.getD "") else
    match jget st._attributes ATTR_NAME with
    | some v => v
    | none => JVal.s "Twinkly light"

/-- Property `state_attributes` (light.py lines 91–101): it aliases the stored
dict, writes the `host` and `brightness` keys into it, and returns it — so the
read mutates the client's own `_attributes`. -/
def state_attributes (st : LState) : LState × JObj :=
  let attributes := setAttr (setAttr st._attributes ATTR_HOST (JVal.s st._host))
    ATTR_BRIGHTNESS (JVal.n st._brightness)
  ({ st with _attributes := attributes }, attributes)

/-- Method `get_is_on` (light.py lines 154–155): GET the mode endpoint and
compare the `mode` field against `"off"` (Python `!=` across types is `True`
for a non-string value; a missing field is a `KeyError`). -/
def get_is_on (sess : Session) (tok : Option String) : RW Bool :=
  let r := send_request sess EP_MODE none 1 tok
  match r.res with
  | Except.ok (some obj) =>
    (match jget obj "mode" with
     | some v => ⟨Except.ok (decide (v ≠ JVal.s "off")), r.tok, r.trace⟩
     | none => ⟨Except.error Err.other, r.tok, r.trace⟩)
  | Except.ok none => ⟨Except.error Err.other, r.tok, r.trace⟩
  | Except.error e => ⟨Except.error e, r.tok, r.trace⟩

/-- Method `get_brigthness` (light.py lines 157–159): GET the brightness
endpoint; when its `mode` field equals `"enabled"`, return `int` of its `value`
field, otherwise return 100. The `mode` field is read first (so a missing
`mode` is a `KeyError` even when `value` is also missing). -/
def get_brigthness (sess : Session) (tok : Option String) : RW Int :=
  let r := send_request sess EP_BRIGHTNESS none 1 tok
  match r.res with
  | Except.ok (some obj) =>
    (match jget obj "mode" with
     | none => ⟨Except.error Err.other, r.tok, r.trace⟩
     | some m =>
       if m = JVal.s "enabled" then
         match jget obj "value" with
         | none => ⟨Except.error Err.other, r.tok, r.trace⟩
         | some v =>
           (match pyInt v with
            | Except.ok i => ⟨Except.ok i, r.tok, r.trace⟩
            | Except.error e => ⟨Except.error e, r.tok, r.trace⟩)
       else ⟨Except.ok 100, r.tok, r.trace⟩)
  | Except.ok none => ⟨Except.error Err.other, r.tok, r.trace⟩
  | Except.error e => ⟨Except.error e, r.tok, r.trace⟩

/-- Method `get_device_info` (light.py lines 151–152): GET the gestalt
endpoint and return the parsed body. -/
def get_device_info (sess : Session) (tok : Option String) : RW JObj :=
  let r := send_request sess EP_DEVICE_INFO none 1 tok
  match r.res with
  | Except.ok (some obj) => ⟨Except.ok obj, r.tok, r.trace⟩
  | Except.ok none => ⟨Except.error Err.other, r.tok, r.trace⟩
  | Except.error e => ⟨Except.error e, r.tok, r.trace⟩

/-- The merge loop of `async_update` (light.py lines 131–133): fold the
device-info items in document order, skipping denylisted keys. -/
def mergeInfo (attrs : JObj) (info : JObj) : JObj :=
  info.foldl (fun acc kv => if kv.1 ∈ HIDDEN_ATTR then acc else setAttr acc kv.1 kv.2) attrs

/-- The `try` block of `async_update` (light.py lines 127–137), with the state
reached when an exception interrupts it: assignments made before the failing
statement persist (`_is_on` as soon as the mode read returns, `_brightness` as
soon as the brightness read returns, the token state always), and
`_is_available := true` is only reached after all three reads and the merge. -/
def async_updateTry (sess : Session) (st : LState) : LState × Option Err × List Ev :=
  match get_is_on sess st._token with
  | ⟨Except.error e, tok1, tr1⟩ => ({ st with _token := tok1 }, some e, tr1)
  | ⟨Except.ok onv, tok1, tr1⟩ =>
    match get_brigthness sess tok1 with
    | ⟨Except.error e, tok2, tr2⟩ =>
      ({ st with _token := tok2, _is_on := onv }, some e, tr1 ++ tr2)
    | ⟨Except.ok bp, tok2, tr2⟩ =>
      match get_device_info sess tok2 with
      | ⟨Except.error e, tok3, tr3⟩ =>
        ({ st with
            _token := tok3
            _is_on := onv
            _brightness := (bp : ℚ) * (255 / 100) }, some e, tr1 ++ tr2 ++ tr3)
      | ⟨Except.ok info, tok3, tr3⟩ =>
        ({ st with
            _token := tok3
            _is_on := onv
            _brightness := (bp : ℚ) * (255 / 100)
            _attributes := mergeInfo st._attributes info
            _is_available := true }, none, tr1 ++ tr2 ++ tr3)

/-- Method `async_update` (light.py lines 122–143): run the try block; a bare
`except` catches every failure, sets `_is_available := false` and returns
normally. -/
def async_update (sess : Session) (st : LState) : LState × List Ev :=
  match async_updateTry sess st with
  | (st1, none, tr) => (st1, tr)
  | (st1, some _, tr) => ({ st1 with _is_available := false }, tr)

/-- Method `set_is_on` (light.py lines 145–146), at the granularity of the
`send_request` invocation it performs: endpoint and JSON payload. -/
def set_is_on (is_on : Bool) : String × JObj :=
  (EP_MODE, [("mode", JVal.s (if is_on then "movie" else "off"))])

/-- Method `set_brightness` (light.py lines 148–149), as the `send_request`
invocation it performs. -/
def set_brightness (brightness : Int) : String × JObj :=
  (EP_BRIGHTNESS, [("value", JVal.n (brightness : ℚ)), ("type", JVal.s "A")])

/-- Method `async_turn_on` (light.py lines 103–116), as the ordered list of
`send_request` invocations (outbound commands) it performs. The argument is
the optional `ATTR_BRIGHTNESS` kwarg, an integer on the platform's 0–255
scale; `int(int(b) / 2.55)` is `b * 100 / 255` by integer division (exact for
the platform's 0–255 inputs, float rounding of `2.55` notwithstanding). -/
def async_turn_on (arg : Option Nat) : List (String × JObj) :=
  match arg with
  | some raw =>
    let brightness : Nat := raw * 100 / 255
    if brightness = 0 then [set_is_on false]
    else [set_brightness (brightness : Int), set_is_on true]
  | none => [set_is_on true]

/-- Method `async_turn_off` (light.py lines 118–120), as its outbound
commands. -/
def async_turn_off : List (String × JObj) :=
  [set_is_on false]

/-- The state-mutating operations of the client, for invariant claims:
a polling refresh against some transport, and a `state_attributes` read
(which writes into the stored attribute map). Commands do not touch cached
state. -/
inductive Op where
  | update (sess : Session)
  | stateAttrs

def step (st : LState) : Op → LState
  | Op.update sess => (async_update sess st).1
  | Op.stateAttrs => (state_attributes st).1

-- Concrete transports used as test fixtures by the theorems below.

/-- A healthy device: mode `movie`, brightness enabled at 50, and a gestalt
body carrying a device name together with all three denylisted keys. -/
def sessTree : Session :=
  { login := Except.ok [("authentication_token", JVal.s "T")]
    verify := fun _ => Except.ok ()
    request := fun ep _ _ =>
      if ep = EP_MODE then Except.ok [("mode", JVal.s "movie")]
      else if ep = EP_BRIGHTNESS then
        Except.ok [("mode", JVal.s "enabled"), ("value", JVal.n 50)]
      else Except.ok [("device_name", JVal.s "Tree"), ("code", JVal.n 1000),
        ("copyright", JVal.s "LEDWORKS 2018"), ("mac", JVal.s "00:2d:13:3c:aa:aa")] }

/-- A device reporting brightness control as disabled. -/
def sessDisabled : Session :=
  { login := Except.ok [("authentication_token", JVal.s "T")]
    verify := fun _ => Except.ok ()
    request := fun ep _ _ =>
      if ep = EP_MODE then Except.ok [("mode", JVal.s "movie")]
      else if ep = EP_BRIGHTNESS then Except.ok [("mode", JVal.s "disabled")]
      else Except.ok [] }

/-- A device whose mode read succeeds (reporting `off`) but whose brightness
read fails with an HTTP 500. -/
def sessModeOffBrightFail : Session :=
  { login := Except.ok [("authentication_token", JVal.s "T")]
    verify := fun _ => Except.ok ()
    request := fun ep _ _ =>
      if ep = EP_MODE then Except.ok [("mode", JVal.s "off")]
      else Except.error (Err.http 500) }

/-- A transport on which every authenticated request returns HTTP 401 while
login and verify succeed. -/
def sess401 : Session :=
  { login := Except.ok [("authentication_token", JVal.s "T1")]
    verify := fun _ => Except.ok ()
    request := fun _ _ _ => Except.error (Err.http 401) }

/-- A fully unreachable device: every call times out. -/
def sessDown : Session :=
  { login := Except.error Err.other
    verify := fun _ => Except.error Err.other
    request := fun _ _ _ => Except.error Err.other }

/-- The state after one successful refresh of a client constructed without a
configured name, against the healthy device. -/
def stPrior : LState := (async_update sessTree (initState none "192.0.2.1")).1

/-- The state after one successful refresh of a client constructed with the
configured name `""` (an empty string is a legal YAML value for the optional
`name` option). -/
def stEmptyName : LState := (async_update sessTree (initState (some "") "192.0.2.1")).1

-- Helper lemmas about the attribute map.

theorem jget_setAttr_self (l : JObj) (k : String) (v : JVal) :
    jget (setAttr l k v) k = some v := by
  induction l with
  | nil => simp [setAttr, jget]
  | cons p rest ih =>
    obtain ⟨k2, v2⟩ := p
    by_cases h : k2 = k <;> simp [setAttr, jget, h, ih]

theorem jget_setAttr_ne (l : JObj) (k k2 : String) (v : JVal) (h : k2 ≠ k) :
    jget (setAttr l k v) k2 = jget l k2 := by
  induction l with
  | nil => simp [setAttr, jget, h, Ne.symm h]
  | cons p rest ih =>
    obtain ⟨k3, v3⟩ := p
    by_cases h3 : k3 = k
    · subst h3
      simp [setAttr, jget, Ne.symm h]
    · by_cases h4 : k3 = k2 <;> simp [setAttr, jget, h, Ne.symm h, h3, h4, ih]

theorem mergeInfo_cons (attrs : JObj) (kv : String × JVal) (rest : JObj) :
    mergeInfo attrs (kv :: rest) =
      mergeInfo (if kv.1 ∈ HIDDEN_ATTR then attrs else setAttr attrs kv.1 kv.2) rest := by
  simp only [mergeInfo, List.foldl]

theorem jget_mergeInfo_hidden (info attrs : JObj) (k : String)
    (hk : k ∈ HIDDEN_ATTR) (h : jget attrs k = none) :
    jget (mergeInfo attrs info) k = none := by
  induction info generalizing attrs with
  | nil => simpa [mergeInfo] using h
  | cons kv rest ih =>
    rw [mergeInfo_cons]
    by_cases hh : kv.1 ∈ HIDDEN_ATTR
    · simpa [hh] using ih attrs h
    · have hne : k ≠ kv.1 := fun he => hh (he ▸ hk)
      simp only [hh, if_false]
      exact ih _ ((jget_setAttr_ne attrs kv.1 k kv.2 hne).trans h)

-- Helper lemmas about one refresh cycle.

/-- Exhaustive case analysis of one `async_update` call: either one of the
three reads fails (leaving later fields untouched) or all succeed. -/
theorem async_update_cases (sess : Session) (st : LState) :
    (∃ e tk1 tr1, get_is_on sess st._token = ⟨Except.error e, tk1, tr1⟩ ∧
      (async_updateTry sess st).2.1 = some e ∧
      async_update sess st = ({ st with _token := tk1, _is_available := false }, tr1)) ∨
    (∃ onv tk1 tr1 e tk2 tr2,
      get_is_on sess st._token = ⟨Except.ok onv, tk1, tr1⟩ ∧
      get_brigthness sess tk1 = ⟨Except.error e, tk2, tr2⟩ ∧
      (async_updateTry sess st).2.1 = some e ∧
      async_update sess st =
        ({ st with _token := tk2, _is_on := onv, _is_available := false }, tr1 ++ tr2)) ∨
    (∃ onv tk1 tr1 bp tk2 tr2 e tk3 tr3,
      get_is_on sess st._token = ⟨Except.ok onv, tk1, tr1⟩ ∧
      get_brigthness sess tk1 = ⟨Except.ok bp, tk2, tr2⟩ ∧
      get_device_info sess tk2 = ⟨Except.error e, tk3, tr3⟩ ∧
      (async_updateTry sess st).2.1 = some e ∧
      async_update sess st =
        ({ st with _token := tk3, _is_on := onv, _brightness := (bp : ℚ) * (255 / 100), _is_available := false }, tr1 ++ tr2 ++ tr3)) ∨
    (∃ onv tk1 tr1 bp tk2 tr2 info tk3 tr3,
      get_is_on sess st._token = ⟨Except.ok onv, tk1, tr1⟩ ∧
      get_brigthness sess tk1 = ⟨Except.ok bp, tk2, tr2⟩ ∧
      get_device_info sess tk2 = ⟨Except.ok info, tk3, tr3⟩ ∧
      (async_updateTry sess st).2.1 = none ∧
      async_update sess st =
        ({ st with _token := tk3, _is_on := onv, _brightness := (bp : ℚ) * (255 / 100), _attributes := mergeInfo st._attributes info, _is_available := true }, tr1 ++ tr2 ++ tr3)) := by
  rcases h1 : get_is_on sess st._token with ⟨res1, tk1, tr1⟩
  cases res1 with
  | error e =>
    refine Or.inl ⟨e, tk1, tr1, rfl, ?_, ?_⟩
    · simp only [async_updateTry, h1]
    · simp only [async_update, async_updateTry, h1]
  | ok onv =>
    rcases h2 : get_brigthness sess tk1 with ⟨res2, tk2, tr2⟩
    cases res2 with
    | error e =>
      refine Or.inr (Or.inl ⟨onv, tk1, tr1, e, tk2, tr2, rfl, h2, ?_, ?_⟩)
      · simp only [async_updateTry, h1, h2]
      · simp only [async_update, async_updateTry, h1, h2]
    | ok bp =>
      rcases h3 : get_device_info sess tk2 with ⟨res3, tk3, tr3⟩
      cases res3 with
      | error e =>
        refine Or.inr (Or.inr (Or.inl ⟨onv, tk1, tr1, bp, tk2, tr2, e, tk3, tr3, rfl, h2, h3, ?_, ?_⟩))
        · simp only [async_updateTry, h1, h2, h3]
        · simp only [async_update, async_updateTry, h1, h2, h3]
      | ok info =>
        refine Or.inr (Or.inr (Or.inr ⟨onv, tk1, tr1, bp, tk2, tr2, info, tk3, tr3, rfl, h2, h3, ?_, ?_⟩))
        · simp only [async_updateTry, h1, h2, h3]
        · simp only [async_update, async_updateTry, h1, h2, h3]

theorem async_update_attrs (sess : Session) (st : LState) :
    (async_update sess st).1._attributes = st._attributes ∨
    ∃ info, (async_update sess st).1._attributes = mergeInfo st._attributes info := by
  rcases async_update_cases sess st with ⟨e, tk1, tr1, h1, htry, hu⟩ |
    ⟨onv, tk1, tr1, e, tk2, tr2, h1, h2, htry, hu⟩ |
    ⟨onv, tk1, tr1, bp, tk2, tr2, e, tk3, tr3, h1, h2, h3, htry, hu⟩ |
    ⟨onv, tk1, tr1, bp, tk2, tr2, info, tk3, tr3, h1, h2, h3, htry, hu⟩
  · left; rw [hu]
  · left; rw [hu]
  · left; rw [hu]
  · right; exact ⟨info, by rw [hu]⟩

theorem get_brigthness_disabled (sess : Session) (tok : Option String) (obj : JObj) (m : JVal)
    (h : (send_request sess EP_BRIGHTNESS none 1 tok).res = Except.ok (some obj))
    (hm : jget obj "mode" = some m) (hne : m ≠ JVal.s "enabled") :
    (get_brigthness sess tok).res = Except.ok 100 := by
  rw [get_brigthness]
  rcases hsr : send_request sess EP_BRIGHTNESS none 1 tok with ⟨rres, rtok, rtr⟩
  rw [hsr] at h
  simp only at h
  rw [h]
  simp [hm, hne]

-- Claim theorems.

/-- C5: a `turnOn` call whose supplied brightness converts to 0 issues exactly
one outbound command — the mode write with mode `"off"` — and neither a
brightness-set command nor a mode `"movie"` command. -/
theorem turn_on_zero_brightness (raw : Nat) (h : raw * 100 / 255 = 0) :
    async_turn_on (some raw) = [(EP_MODE, [("mode", JVal.s "off")])] := by
  simp [async_turn_on, h, set_is_on]

/-- C5 witness: the platform brightness value 2 converts to 0 and produces the
single mode-off command. -/
theorem turn_on_zero_brightness_w :
    2 * 100 / 255 = 0 ∧ async_turn_on (some 2) = [(EP_MODE, [("mode", JVal.s "off")])] :=
  ⟨by decide, turn_on_zero_brightness 2 (by decide)⟩

/-- C6: a `turnOn` call whose supplied brightness converts to a non-zero value
issues exactly two outbound commands in order — the brightness-set with the
converted value, then the mode write with mode `"movie"` — and a call without
a brightness issues only the mode `"movie"` command. -/
theorem turn_on_nonzero_brightness (raw : Nat) (h : raw * 100 / 255 ≠ 0) :
    async_turn_on (some raw) =
      [(EP_BRIGHTNESS, [("value", JVal.n ((raw * 100 / 255 : Nat) : ℚ)), ("type", JVal.s "A")]),
        (EP_MODE, [("mode", JVal.s "movie")])] ∧
    async_turn_on none = [(EP_MODE, [("mode", JVal.s "movie")])] := by
  constructor
  · simp [async_turn_on, h, set_is_on, set_brightness]
    norm_cast
  · rfl

/-- C6 witness: the platform brightness value 128 converts to 50 and produces
the brightness-set(50) command followed by the mode-movie command. -/
theorem turn_on_nonzero_brightness_w :
    128 * 100 / 255 ≠ 0 ∧
    async_turn_on (some 128) =
      [(EP_BRIGHTNESS, [("value", JVal.n 50), ("type", JVal.s "A")]),
        (EP_MODE, [("mode", JVal.s "movie")])] ∧
    async_turn_on none = [(EP_MODE, [("mode", JVal.s "movie")])] := by
  have h := turn_on_nonzero_brightness 128 (by decide)
  refine ⟨by decide, ?_, h.2⟩
  rw [h.1]
  norm_num

/-- C10: reading `state_attributes` mutates the stored attribute map — the
returned dict is the stored one, and after the read it contains the `host` key
(the configured host) and the `brightness` key (the cached brightness). -/
theorem state_attributes_mutates_map (st : LState) :
    (state_attributes st).2 = (state_attributes st).1._attributes ∧
    jget (state_attributes st).1._attributes ATTR_HOST = some (JVal.s st._host) ∧
    jget (state_attributes st).1._attributes ATTR_BRIGHTNESS = some (JVal.n st._brightness) := by
  refine ⟨rfl, ?_, ?_⟩
  · show jget (setAttr (setAttr st._attributes ATTR_HOST (JVal.s st._host))
      ATTR_BRIGHTNESS (JVal.n st._brightness)) ATTR_HOST = some (JVal.s st._host)
    rw [jget_setAttr_ne _ _ _ _ (by decide), jget_setAttr_self]
  · show jget (setAttr (setAttr st._attributes ATTR_HOST (JVal.s st._host))
      ATTR_BRIGHTNESS (JVal.n st._brightness)) ATTR_BRIGHTNESS = some (JVal.n st._brightness)
    rw [jget_setAttr_self]

/-- C8 counterexample: a client constructed with the configured name `""` (a
supplied name) does not return it — after a refresh stored `device_name:
"Tree"`, the display name is `"Tree"`, because Python truthiness treats the
empty string like an absent name. -/
theorem name_empty_config_cex :
    stEmptyName._name = some "" ∧ name stEmptyName = JVal.s "Tree" ∧
    name stEmptyName ≠ JVal.s "" := by
  refine ⟨rfl, rfl, ?_⟩
  intro h
  exact absurd h (by decide)

/-- C8 amended: a non-empty configured name always takes precedence; when the
configured name is absent or empty, the stored `device_name` attribute is
returned when present, and the constant default name otherwise. -/
theorem name_resolution_amended (st : LState) :
    (∀ n, st._name = some n → n ≠ "" → name st = JVal.s n) ∧
    (pyTruthyStr st._name = false →
      (∀ v, jget st._attributes ATTR_NAME = some v → name st = v) ∧
      (jget st._attributes ATTR_NAME = none → name st = JVal.s "Twinkly light")) := by
  constructor
  · intro n hn hne
    simp [name, pyTruthyStr, hn, hne]
  · intro hf
    constructor
    · intro v hv
      simp [name, hf, hv]
    · intro hv
      simp [name, hf, hv]

/-- C8 witness: on the state reached by a refresh of a client with no
configured name against a device reporting `device_name: "Tree"`, the display
name is `"Tree"`; with the attribute absent, it is the default. -/
theorem name_resolution_amended_w :
    name stPrior = JVal.s "Tree" ∧
    name (initState none "192.0.2.1") = JVal.s "Twinkly light" := by
  constructor
  · exact (name_resolution_amended stPrior).2 (by rfl) |>.1 (JVal.s "Tree") (by rfl)
  · exact (name_resolution_amended (initState none "192.0.2.1")).2 (by rfl) |>.2 (by rfl)

/-- C7: `auth` stores a token only when it was extracted from the login
response and the separate verify call carrying it succeeded (the verify event
precedes the store, which is the last step); on any failure the error
propagates (`res` is the error) and the stored token is unchanged. -/
theorem auth_verifies_before_store (sess : Session) (tok : Option String) :
    (∀ e, (auth sess tok).res = Except.error e → (auth sess tok).tok = tok) ∧
    (∀ t, (auth sess tok).res = Except.ok t →
      (auth sess tok).tok = some t ∧
      (auth sess tok).trace = [Ev.login, Ev.verify t] ∧
      sess.verify t = Except.ok () ∧
      ∃ obj, sess.login = Except.ok obj ∧
        jget obj "authentication_token" = some (JVal.s t)) := by
  cases hl : sess.login with
  | error e =>
    constructor
    · intro e2 _
      simp [auth, hl]
    · intro t ht
      rw [auth, hl] at ht
      exact absurd ht (by simp)
  | ok obj =>
    cases hj : jget obj "authentication_token" with
    | none =>
      constructor
      · intro e2 _
        simp [auth, hl, hj]
      · intro t ht
        rw [auth, hl] at ht
        simp only [hj] at ht
        exact absurd ht (by simp)
    | some v =>
      cases v with
      | n q =>
        constructor
        · intro e2 _
          simp [auth, hl, hj]
        · intro t ht
          rw [auth, hl] at ht
          simp only [hj] at ht
          exact absurd ht (by simp)
      | s token =>
        cases hv : sess.verify token with
        | error e =>
          constructor
          · intro e2 _
            simp [auth, hl, hj, hv]
          · intro t ht
            rw [auth, hl] at ht
            simp only [hj, hv] at ht
            exact absurd ht (by simp)
        | ok u =>
          constructor
          · intro e2 he
            rw [auth, hl] at he
            simp only [hj, hv] at he
            exact absurd he (by simp)
          · intro t ht
            rw [auth, hl] at ht
            simp only [hj, hv] at ht
            simp only [Except.ok.injEq] at ht
            subst ht
            refine ⟨?_, ?_, ?_, obj, rfl, hj⟩
            · simp [auth, hl, hj, hv]
            · simp [auth, hl, hj, hv]
            · cases u
              exact hv

/-- C7 witness: against the healthy transport, authentication stores the
extracted token `"T"` after logging in and verifying it. -/
theorem auth_verifies_before_store_w :
    (auth sessTree none).tok = some "T" ∧
    (auth sessTree none).trace = [Ev.login, Ev.verify "T"] := by
  have h := (auth_verifies_before_store sessTree none).2 "T" (by rfl)
  exact ⟨h.1, h.2.1⟩

/-- C3: when the transport answers an authenticated request with HTTP 401
regardless of the token while login and verify succeed, a `send_request` call
holding a token and one retry performs the request, clears the token and
re-authenticates (login and verify appear in the trace), retries exactly once
with the fresh token, and propagates the second 401 to the caller. -/
theorem send_request_retries_once_on_401 (sess : Session) (endpoint : String)
    (data : Option JObj) (t0 tok1 : String) (obj : JObj)
    (hreq : ∀ t, sess.request endpoint data t = Except.error (Err.http 401))
    (hlogin : sess.login = Except.ok obj)
    (htok : jget obj "authentication_token" = some (JVal.s tok1))
    (hverify : sess.verify tok1 = Except.ok ()) :
    send_request sess endpoint data 1 (some t0) =
      ⟨Except.error (Err.http 401), some tok1,
        [Ev.req endpoint data t0, Ev.login, Ev.verify tok1, Ev.req endpoint data tok1]⟩ := by
  have h1 : send_request_once sess endpoint data (some t0) =
      ⟨Except.error (Err.http 401), some t0, [Ev.req endpoint data t0]⟩ := by
    simp [send_request_once, hreq]
  have h2 : send_request_once sess endpoint data none =
      ⟨Except.error (Err.http 401), some tok1,
        [Ev.login, Ev.verify tok1, Ev.req endpoint data tok1]⟩ := by
    simp [send_request_once, auth, hlogin, htok, hverify, hreq]
  show send_request sess endpoint data (Nat.succ 0) (some t0) = _
  rw [send_request, h1]
  rw [send_request, h2]
  rfl

/-- C3 witness: on the always-401 transport, starting with token `"T0"`, the
call fails with 401 after exactly two request attempts separated by one
re-authentication. -/
theorem send_request_retries_once_on_401_w :
    send_request sess401 EP_MODE none 1 (some "T0") =
      ⟨Except.error (Err.http 401), some "T1",
        [Ev.req EP_MODE none "T0", Ev.login, Ev.verify "T1", Ev.req EP_MODE none "T1"]⟩ :=
  send_request_retries_once_on_401 sess401 EP_MODE none "T0" "T1"
    [("authentication_token", JVal.s "T1")] (fun _ => rfl) rfl rfl rfl

/-- C1 counterexample: after a fully successful refresh against a device that
reports brightness control as disabled, the stored brightness is 255 (the code
stores `100 * 2.55`), not an integer in [0, 100] and not 100 — refuting the
claimed range and the claimed disabled-case value. -/
theorem brightness_range_cex :
    (async_update sessDisabled (initState none "192.0.2.1")).1._is_available = true ∧
    (async_update sessDisabled (initState none "192.0.2.1")).1._brightness = 255 ∧
    100 < (async_update sessDisabled (initState none "192.0.2.1")).1._brightness := by
  have hb : (async_update sessDisabled (initState none "192.0.2.1")).1._brightness = 255 := by
    simp [async_update, async_updateTry, get_is_on, get_brigthness, get_device_info,
      send_request, send_request_once, auth, jget, initState, EP_MODE, EP_BRIGHTNESS,
      EP_DEVICE_INFO, sessDisabled, mergeInfo, setAttr, pyInt, ratTrunc]
    norm_num
  refine ⟨rfl, hb, ?_⟩
  rw [hb]
  norm_num

/-- C1 amended: after a refresh in which all three reads succeed,
`_is_available` is true and the stored brightness is `p * 2.55` where `p` is
the percent returned by the brightness read — hence in [0, 255] (not [0, 100])
whenever the device reports a percent in [0, 100], and equal to 255 (not 100)
when the device reports brightness control as disabled. -/
theorem brightness_after_successful_refresh (sess : Session) (st : LState)
    (hs : (async_updateTry sess st).2.1 = none) :
    (async_update sess st).1._is_available = true ∧
    (∃ p : Int, (get_brigthness sess (get_is_on sess st._token).tok).res = Except.ok p ∧
      (async_update sess st).1._brightness = (p : ℚ) * (255 / 100) ∧
      (0 ≤ p → p ≤ 100 →
        0 ≤ (async_update sess st).1._brightness ∧
        (async_update sess st).1._brightness ≤ 255)) ∧
    (∀ obj m,
      (send_request sess EP_BRIGHTNESS none 1 (get_is_on sess st._token).tok).res =
        Except.ok (some obj) →
      jget obj "mode" = some m → m ≠ JVal.s "enabled" →
      (async_update sess st).1._brightness = 255) := by
  rcases async_update_cases sess st with ⟨e, tk1, tr1, h1, htry, hu⟩ |
    ⟨onv, tk1, tr1, e, tk2, tr2, h1, h2, htry, hu⟩ |
    ⟨onv, tk1, tr1, bp, tk2, tr2, e, tk3, tr3, h1, h2, h3, htry, hu⟩ |
    ⟨onv, tk1, tr1, bp, tk2, tr2, info, tk3, tr3, h1, h2, h3, htry, hu⟩
  · rw [hs] at htry; exact absurd htry (by simp)
  · rw [hs] at htry; exact absurd htry (by simp)
  · rw [hs] at htry; exact absurd htry (by simp)
  · refine ⟨by rw [hu], ⟨bp, ?_, by rw [hu], ?_⟩, ?_⟩
    · rw [h1, h2]
    · intro hp0 hp100
      rw [hu]
      constructor
      · have h0 : (0 : ℚ) ≤ (bp : ℚ) := by exact_mod_cast hp0
        nlinarith
      · have hb : (bp : ℚ) ≤ 100 := by exact_mod_cast hp100
        nlinarith
    · intro obj m hobj hm hne
      rw [h1] at hobj
      have h100 := get_brigthness_disabled sess tk1 obj m hobj hm hne
      rw [h2] at h100
      simp only [Except.ok.injEq] at h100
      rw [hu, h100]
      norm_num

/-- C1 witness: against the disabled-brightness device, the amended theorem
applies — the refresh succeeds and the stored brightness is within [0, 255]. -/
theorem brightness_after_successful_refresh_w :
    (async_update sessDisabled (initState none "192.0.2.1")).1._is_available = true ∧
    (async_update sessDisabled (initState none "192.0.2.1")).1._brightness ≤ 255 := by
  obtain ⟨hav, ⟨p, hp, hb, hr⟩, hd⟩ :=
    brightness_after_successful_refresh sessDisabled (initState none "192.0.2.1") (by rfl)
  have h2 : (get_brigthness sessDisabled
      (get_is_on sessDisabled (initState none "192.0.2.1")._token).tok).res =
      Except.ok (100 : Int) := by rfl
  rw [h2] at hp
  simp only [Except.ok.injEq] at hp
  subst hp
  exact ⟨hav, (hr (by norm_num) (by norm_num)).2⟩

/-- C2 counterexample: starting from a successful refresh (device on, so
`_is_on = true`), a refresh whose mode read succeeds (reporting `"off"`) and
whose brightness read then fails flips `_is_on` to `false` — the failed
refresh did not leave `isOn` unchanged, refuting the claimed all-or-nothing
frame. -/
theorem refresh_failure_frame_cex :
    stPrior._is_available = true ∧ stPrior._is_on = true ∧
    (async_update sessModeOffBrightFail stPrior).1._is_available = false ∧
    (async_update sessModeOffBrightFail stPrior).1._is_on ≠ stPrior._is_on := by
  refine ⟨rfl, rfl, rfl, ?_⟩
  intro h
  exact absurd h (by decide)

/-- C2 amended: a failing refresh always sets `_is_available := false` and
leaves `_attributes` unchanged, but `_is_on` and `_brightness` are only
unchanged when the failure happens at or before their respective reads: reads
completed before the failing one do update their fields. -/
theorem refresh_failure_frame (sess : Session) (st : LState) :
    (∀ e, (get_is_on sess st._token).res = Except.error e →
      (async_update sess st).1._is_on = st._is_on ∧
      (async_update sess st).1._brightness = st._brightness ∧
      (async_update sess st).1._attributes = st._attributes ∧
      (async_update sess st).1._is_available = false) ∧
    (∀ onv e, (get_is_on sess st._token).res = Except.ok onv →
      (get_brigthness sess (get_is_on sess st._token).tok).res = Except.error e →
      (async_update sess st).1._is_on = onv ∧
      (async_update sess st).1._brightness = st._brightness ∧
      (async_update sess st).1._attributes = st._attributes ∧
      (async_update sess st).1._is_available = false) ∧
    (∀ onv bp e, (get_is_on sess st._token).res = Except.ok onv →
      (get_brigthness sess (get_is_on sess st._token).tok).res = Except.ok bp →
      (get_device_info sess
        (get_brigthness sess (get_is_on sess st._token).tok).tok).res = Except.error e →
      (async_update sess st).1._is_on = onv ∧
      (async_update sess st).1._brightness = (bp : ℚ) * (255 / 100) ∧
      (async_update sess st).1._attributes = st._attributes ∧
      (async_update sess st).1._is_available = false) := by
  rcases async_update_cases sess st with ⟨e, tk1, tr1, h1, htry, hu⟩ |
    ⟨onv, tk1, tr1, e, tk2, tr2, h1, h2, htry, hu⟩ |
    ⟨onv, tk1, tr1, bp, tk2, tr2, e, tk3, tr3, h1, h2, h3, htry, hu⟩ |
    ⟨onv, tk1, tr1, bp, tk2, tr2, info, tk3, tr3, h1, h2, h3, htry, hu⟩
  · refine ⟨fun e2 _ => by rw [hu]; exact ⟨rfl, rfl, rfl, rfl⟩, fun onv e2 hok _ => ?_,
      fun onv bp e2 hok _ _ => ?_⟩
    · rw [h1] at hok; exact absurd hok (by simp)
    · rw [h1] at hok; exact absurd hok (by simp)
  · refine ⟨fun e2 herr => ?_, fun onv2 e2 hok hberr => ?_, fun onv2 bp e2 hok hbok _ => ?_⟩
    · rw [h1] at herr; exact absurd herr (by simp)
    · rw [h1] at hok
      simp only [Except.ok.injEq] at hok
      subst hok
      rw [hu]
      exact ⟨rfl, rfl, rfl, rfl⟩
    · rw [h1] at hbok
      simp only at hbok
      rw [h2] at hbok
      exact absurd hbok (by simp)
  · refine ⟨fun e2 herr => ?_, fun onv2 e2 hok hberr => ?_, fun onv2 bp2 e2 hok hbok hderr => ?_⟩
    · rw [h1] at herr; exact absurd herr (by simp)
    · rw [h1] at hberr
      simp only at hberr
      rw [h2] at hberr
      exact absurd hberr (by simp)
    · rw [h1] at hok hbok hderr
      simp only at hok hbok hderr
      rw [h2] at hbok hderr
      simp only at hbok hderr
      rw [h3] at hderr
      simp only [Except.ok.injEq] at hok hbok
      subst hok
      subst hbok
      rw [hu]
      exact ⟨rfl, rfl, rfl, rfl⟩
  · refine ⟨fun e2 herr => ?_, fun onv2 e2 hok hberr => ?_, fun onv2 bp2 e2 hok hbok hderr => ?_⟩
    · rw [h1] at herr; exact absurd herr (by simp)
    · rw [h1] at hberr
      simp only at hberr
      rw [h2] at hberr
      exact absurd hberr (by simp)
    · rw [h1] at hderr
      simp only at hderr
      rw [h2] at hderr
      simp only at hderr
      rw [h3] at hderr
      exact absurd hderr (by simp)

/-- C2 witness: the amended theorem applied to the mode-ok/brightness-fail
transport on the previously refreshed state — `isOn` takes the freshly read
value, while brightness and attributes stay and availability drops. -/
theorem refresh_failure_frame_w :
    (async_update sessModeOffBrightFail stPrior).1._is_on = false ∧
    (async_update sessModeOffBrightFail stPrior).1._brightness = stPrior._brightness ∧
    (async_update sessModeOffBrightFail stPrior).1._attributes = stPrior._attributes ∧
    (async_update sessModeOffBrightFail stPrior).1._is_available = false :=
  (refresh_failure_frame sessModeOffBrightFail stPrior).2.1 false (Err.http 500)
    (by rfl) (by rfl)

/-- C4: `async_update` never propagates a failure — it always returns a state
and trace; whenever the try block fails at any of its three reads (for any
error), availability is false afterwards, and when no failure occurred it is
true. -/
theorem refresh_never_propagates (sess : Session) (st : LState) :
    (∃ st2 tr, async_update sess st = (st2, tr)) ∧
    ((async_updateTry sess st).2.1.isSome = true →
      (async_update sess st).1._is_available = false) ∧
    ((async_updateTry sess st).2.1 = none →
      (async_update sess st).1._is_available = true) := by
  refine ⟨⟨(async_update sess st).1, (async_update sess st).2, rfl⟩, ?_, ?_⟩ <;>
  rcases async_update_cases sess st with ⟨e, tk1, tr1, h1, htry, hu⟩ |
    ⟨onv, tk1, tr1, e, tk2, tr2, h1, h2, htry, hu⟩ |
    ⟨onv, tk1, tr1, bp, tk2, tr2, e, tk3, tr3, h1, h2, h3, htry, hu⟩ |
    ⟨onv, tk1, tr1, bp, tk2, tr2, info, tk3, tr3, h1, h2, h3, htry, hu⟩ <;>
  intro h <;>
  first
  | (rw [hu]; done)
  | (rw [htry] at h; exact absurd h (by simp))

/-- C4 witness: against the fully unreachable device the try block fails, the
update returns normally and marks the client unavailable. -/
theorem refresh_never_propagates_w :
    (async_update sessDown stPrior).1._is_available = false :=
  (refresh_never_propagates sessDown stPrior).2.1 (by rfl)

/-- C9: starting from construction, no sequence of refreshes (against any
transports) and `state_attributes` reads ever puts a denylisted key
(`code`, `copyright`, `mac`) into the stored attribute map: the map starts
without them, the refresh merge skips them, and the `state_attributes` writes
touch only `host` and `brightness`. -/
theorem attributes_never_hidden (nm : Option String) (host : String) (ops : List Op) :
    ∀ k, k ∈ HIDDEN_ATTR →
      jget ((ops.foldl step (initState nm host))._attributes) k = none := by
  have hstep : ∀ (st : LState) (op : Op),
      (∀ k, k ∈ HIDDEN_ATTR → jget st._attributes k = none) →
      ∀ k, k ∈ HIDDEN_ATTR → jget ((step st op)._attributes) k = none := by
    intro st op hst k hk
    cases op with
    | update sess =>
      show jget ((async_update sess st).1._attributes) k = none
      rcases async_update_attrs sess st with h | ⟨info, h⟩
      · rw [h]; exact hst k hk
      · rw [h]; exact jget_mergeInfo_hidden info st._attributes k hk (hst k hk)
    | stateAttrs =>
      have hk2 := hk
      simp only [HIDDEN_ATTR, List.mem_cons, List.not_mem_nil, or_false] at hk2
      show jget (setAttr (setAttr st._attributes ATTR_HOST (JVal.s st._host))
        ATTR_BRIGHTNESS (JVal.n st._brightness)) k = none
      rcases hk2 with rfl | rfl | rfl <;>
        rw [jget_setAttr_ne _ _ _ _ (by decide), jget_setAttr_ne _ _ _ _ (by decide)] <;>
        exact hst _ hk
  have hinit : ∀ k, k ∈ HIDDEN_ATTR → jget ((initState nm host)._attributes) k = none := by
    intro k hk
    simp only [HIDDEN_ATTR, List.mem_cons, List.not_mem_nil, or_false] at hk
    rcases hk with rfl | rfl | rfl <;> rfl
  have hfold : ∀ (l : List Op) (st : LState),
      (∀ k, k ∈ HIDDEN_ATTR → jget st._attributes k = none) →
      ∀ k, k ∈ HIDDEN_ATTR → jget ((l.foldl step st)._attributes) k = none := by
    intro l
    induction l with
    | nil => intro st hst; exact hst
    | cons op rest ih => intro st hst; exact ih (step st op) (hstep st op hst)
  exact hfold ops (initState nm host) hinit

/-- C9 witness: after a refresh against a device whose gestalt body carries
all three denylisted keys, followed by a `state_attributes` read, `code` is
still absent from the stored map. -/
theorem attributes_never_hidden_w :
    jget (([Op.update sessTree, Op.stateAttrs].foldl step
      (initState none "192.0.2.1"))._attributes) "code" = none :=
  attributes_never_hidden none "192.0.2.1" [Op.update sessTree, Op.stateAttrs]
    "code" (by decide)

end Twinkly
